import Mathlib

/-!
Shallow embedding of the resumable ingestion pipeline in
src/kurly/initial/initial_embedding.py and
src/kurly/initial/retry_failed_embeddings.py.

Python strings are modelled by Lean String with character-level
(code-point) operations, matching Python slicing and length semantics.
External effects (the embedding service, the vector index, the
single-row fetch of the recovery driver) are modelled as explicit
function parameters; the durable checkpoint file is modelled by the
persisted field of each driver state, updated exactly where the
source calls save_checkpoint.
-/

namespace Kurly

/-- Python substring test, as used by the expressions of the form
pattern in title in notice_json_to_text. -/
def strContains (s pat : String) : Bool :=
  s.toList.tails.any (fun t => pat.toList.isPrefixOf t)

/-- Python s.strip( ): drop whitespace from both ends. -/
def pyStrip (s : String) : String :=
  ⟨((s.toList.dropWhile Char.isWhitespace).reverse.dropWhile Char.isWhitespace).reverse⟩

/-- Python s[:n] (slicing counts code points, as List Char does). -/
def pySlice (s : String) (n : Nat) : String :=
  ⟨s.toList.take n⟩

/-- Python len(s). -/
def pyLen (s : String) : Nat :=
  s.toList.length

/-- Replace every non-overlapping occurrence of pat (left to right), on
character lists; empty pattern leaves the list unchanged (the patterns
replaced by the source are never empty). -/
def replaceAux (pat rep : List Char) : List Char → List Char
  | [] => []
  | c :: rest =>
    if h : pat ≠ [] ∧ pat.isPrefixOf (c :: rest) then
      rep ++ replaceAux pat rep ((c :: rest).drop pat.length)
    else
      c :: replaceAux pat rep rest
  termination_by s => s.length
  decreasing_by
  · simp only [List.length_drop, List.length_cons]
    have hp : 0 < pat.length := List.length_pos.mpr h.1
    omega
  · simp only [List.length_cons]
    omega

/-- Python s.replace(pat, rep). -/
def pyReplace (s pat rep : String) : String :=
  ⟨replaceAux pat.toList rep.toList s.toList⟩

/-! ## Identity mapping

initial_embedding.py line 235: point_id = int(product_no);
initial_embedding.py line 329 and retry_failed_embeddings.py line 186:
point_id = 10000000 + review_id. -/

def REVIEW_OFFSET : Nat := 10000000

def productPointId (product_no : Nat) : Nat := product_no

def reviewPointId (review_id : Nat) : Nat := REVIEW_OFFSET + review_id

/-! ## notice_json_to_text (initial_embedding.py lines 61-91) -/

/-- One entry of the product_notice_notices JSON array; title or
description may be absent (item.get returning None). -/
structure Notice where
  title : Option String
  description : Option String
deriving DecidableEq

/-- Lines 85-86: short_desc = desc[:200] + "..." if len(desc) > 200 else desc
(the 성분 branch of notice_json_to_text). -/
def ingredientShort (desc : String) : String :=
  if 200 < pyLen desc then pySlice desc 200 ++ "..." else desc

/-- The sentence contributed by one notice item, or none when the item
is dropped (empty title or description after stripping); mirrors the
loop body of notice_json_to_text. -/
def noticeSentence (item : Notice) : Option String :=
  let title := pyStrip (item.title.getD "")
  let desc0 := pyStrip (item.description.getD "")
  if title = "" ∨ desc0 = "" then none
  else
    let clean_title :=
      pyReplace (pyReplace title "｢화장품법｣에 따라 " "") "｢화장품법｣에 따른 " ""
    let desc := pyStrip (pyReplace desc0 "\\n" " ")
    if strContains title "용량" || strContains title "중량" then
      some ("내용물의 용량은 " ++ desc ++ "입니다.")
    else if strContains title "피부타입" || strContains title "사양" then
      some (desc ++ "에 사용 가능한 제품입니다.")
    else if strContains title "사용방법" then
      some ("사용 방법은 " ++ desc ++ ".")
    else if strContains title "제조국" then
      some ("제조국은 " ++ desc ++ "입니다.")
    else if strContains title "기능성" then
      some (desc ++ " 제품입니다.")
    else if strContains title "성분" then
      some ("주요 성분은 " ++ ingredientShort desc ++ "입니다.")
    else if strContains title "주의사항" then
      some ("사용 시 주의사항은 다음과 같습니다. " ++ desc)
    else
      some (clean_title ++ "은 " ++ desc ++ "입니다.")

/-- notice_json_to_text: join the per-item sentences with a space;
an empty notices list yields the empty string. -/
def notice_json_to_text (notices : List Notice) : String :=
  String.intercalate " " (notices.filterMap noticeSentence)

/-! ## Embedding client

generate_embedding (initial_embedding.py lines 98-121) and try_embed
(retry_failed_embeddings.py lines 43-57) both return a pair
(vector or None, error message or None); the bounded retry with
backoff happens inside the call, so the drivers see only the final
outcome. We model such a client as an arbitrary function into this
result type. Vector components are rationals (the only numeric claim
is exact in both rational and IEEE arithmetic). -/

abbrev EmbedResult := Option (List ℚ) × Option String

/-- Python if not vector: true when the vector is None or the empty
list (both drivers guard with this falsiness test). -/
def vectorFalsy : Option (List ℚ) → Bool
  | none => true
  | some v => v.isEmpty

/-! ## Product pipeline (process_products, lines 169-254) -/

/-- One row of the product query, after the field conversions of lines
201-211 (or-empty defaults for text fields, int-or-0 for numeric
fields, json.loads-or-[] for the notices). -/
structure ProductRow where
  id : Nat
  product_no : Nat
  product_name : String
  short_description : String
  notices : List Notice
  sales_price : Int
  discounted_price : Int
  review_count : Int
  product_image_url : String
deriving DecidableEq

/-- Payload built at lines 222-233 (indexed_at is the wall-clock
string datetime.now().isoformat(), passed in as now). -/
structure ProductPayload where
  type : String
  product_no : String
  product_name : String
  sales_price : Int
  discounted_price : Int
  review_count : Int
  product_image_url : String
  price : Int
  has_discount : Bool
  indexed_at : String
deriving DecidableEq

def buildProductPayload (row : ProductRow) (now : String) : ProductPayload :=
  { type := "product"
    product_no := toString row.product_no
    product_name := row.product_name
    sales_price := row.sales_price
    discounted_price := row.discounted_price
    review_count := row.review_count
    product_image_url := row.product_image_url
    price := if row.discounted_price > 0 then row.discounted_price else row.sales_price
    has_discount := decide (row.discounted_price > 0 ∧ row.discounted_price < row.sales_price)
    indexed_at := now }

/-- Line 214: the f-string assembled for the embedding call. -/
def productEmbedText (row : ProductRow) : String :=
  "상품명: " ++ row.product_name ++ "\n설명: " ++ row.short_description
    ++ "\n\n" ++ notice_json_to_text row.notices

/-- Driver state for process_products. processed is the in-memory
checkpoint set, persisted is the content of the checkpoint file on
disk, writes is the trace of successful save_to_qdrant upserts. -/
structure ProdState where
  processed : Finset Nat
  persisted : Finset Nat
  success : Nat
  skip : Nat
  fail : Nat
  writes : List (Nat × List ℚ × ProductPayload)
deriving DecidableEq

/-- State at the start of a product run when the loaded checkpoint
holds the set c (lines 170-171 plus counter initialisation). -/
def initProd (c : Finset Nat) : ProdState :=
  { processed := c, persisted := c, success := 0, skip := 0, fail := 0, writes := [] }

/-- The body of the per-row loop of process_products (lines 193-247):
skip when checkpointed; embed; on falsy vector count a failure; else
upsert at point_id = int(product_no); on success add to the in-memory
checkpoint and flush it to disk every 10 successes. -/
def processProductRow (embed : String → EmbedResult)
    (upsert : Nat → List ℚ → ProductPayload → Bool) (now : String)
    (st : ProdState) (row : ProductRow) : ProdState :=
  if row.id ∈ st.processed then
    { st with skip := st.skip + 1 }
  else
    match embed (productEmbedText row) with
    | (none, _) => { st with fail := st.fail + 1 }
    | (some v, _) =>
      if v.isEmpty then { st with fail := st.fail + 1 }
      else
        let payload := buildProductPayload row now
        let point_id := productPointId row.product_no
        if upsert point_id v payload then
          let processed := insert row.id st.processed
          let success := st.success + 1
          { st with
            processed := processed
            success := success
            persisted := if success % 10 = 0 then processed else st.persisted
            writes := st.writes ++ [(point_id, v, payload)] }
        else
          { st with fail := st.fail + 1 }

def runProductRows (embed : String → EmbedResult)
    (upsert : Nat → List ℚ → ProductPayload → Bool) (now : String)
    (st : ProdState) (rows : List ProductRow) : ProdState :=
  rows.foldl (processProductRow embed upsert now) st

/-- process_products run to completion: the loop followed by the
unconditional flush of lines 249-250. -/
def process_products (embed : String → EmbedResult)
    (upsert : Nat → List ℚ → ProductPayload → Bool) (now : String)
    (st : ProdState) (rows : List ProductRow) : ProdState :=
  let st' := runProductRows embed upsert now st rows
  { st' with persisted := st'.processed }

/-! ## Review pipeline (process_reviews, lines 261-353) -/

/-- One row of the review query. contents is row[2] (SQL NULL read as
the empty string); score_field is the int parse of row[3], none when
row[3] is empty or unparseable; registered_field is row[4], none when
empty. -/
structure ReviewRow where
  id : Nat
  product_no : String
  contents : String
  score_field : Option Int
  registered_field : Option String
deriving DecidableEq

/-- One entry of failed_log (lines 309-315). -/
structure FailEntry where
  review_id : Nat
  product_no : String
  error : Option String
  contents_preview : String
  contents_length : Nat
deriving DecidableEq

def mkFailEntry (row : ReviewRow) (contents : String) (err : Option String) : FailEntry :=
  { review_id := row.id
    product_no := row.product_no
    error := err
    contents_preview := pyReplace (pySlice contents 100) "\n" " "
    contents_length := pyLen contents }

/-- Payload built at lines 319-327. -/
structure ReviewPayload where
  type : String
  review_id : Nat
  product_no : String
  review_score : Int
  registered_at : Option String
  indexed_at : String
  contents : String
deriving DecidableEq

/-- Line 326: contents[:500] if len(contents) <= 500 else contents[:500] + "…". -/
def reviewPreviewContents (contents : String) : String :=
  if pyLen contents ≤ 500 then pySlice contents 500
  else pySlice contents 500 ++ "…"

def buildReviewPayload (row : ReviewRow) (contents now : String) : ReviewPayload :=
  { type := "review"
    review_id := row.id
    product_no := row.product_no
    review_score := row.score_field.getD 3
    registered_at := row.registered_field.map (fun s => pySlice s 10)
    indexed_at := now
    contents := reviewPreviewContents contents }

/-- Driver state for process_reviews. embedCalls is the trace of the
review ids for which the embedding client was invoked. -/
structure RevState where
  processed : Finset Nat
  persisted : Finset Nat
  success : Nat
  skip : Nat
  fail : Nat
  failedLog : List FailEntry
  embedCalls : List Nat
  writes : List (Nat × List ℚ × ReviewPayload)
deriving DecidableEq

def initRev (c : Finset Nat) : RevState :=
  { processed := c, persisted := c, success := 0, skip := 0, fail := 0
    failedLog := [], embedCalls := [], writes := [] }

/-- The body of the per-row loop of process_reviews (lines 285-341):
skip when checkpointed; skip when the stripped contents is empty;
embed; on falsy vector count a failure and append to failed_log; else
upsert at point_id = 10000000 + review_id; on success add to the
in-memory checkpoint and flush it to disk every 50 successes. -/
def processReviewRow (embed : String → EmbedResult)
    (upsert : Nat → List ℚ → ReviewPayload → Bool) (now : String)
    (st : RevState) (row : ReviewRow) : RevState :=
  if row.id ∈ st.processed then
    { st with skip := st.skip + 1 }
  else
    let contents := pyStrip row.contents
    if contents = "" then
      { st with skip := st.skip + 1 }
    else
      let st1 := { st with embedCalls := st.embedCalls ++ [row.id] }
      let res := embed contents
      match res.1 with
      | none =>
        { st1 with
          fail := st1.fail + 1
          failedLog := st1.failedLog ++ [mkFailEntry row contents res.2] }
      | some v =>
        if v.isEmpty then
          { st1 with
            fail := st1.fail + 1
            failedLog := st1.failedLog ++ [mkFailEntry row contents res.2] }
        else
          let payload := buildReviewPayload row contents now
          let point_id := reviewPointId row.id
          if upsert point_id v payload then
            let processed := insert row.id st1.processed
            let success := st1.success + 1
            { st1 with
              processed := processed
              success := success
              persisted := if success % 50 = 0 then processed else st1.persisted
              writes := st1.writes ++ [(point_id, v, payload)] }
          else
            { st1 with fail := st1.fail + 1 }

def runReviewRows (embed : String → EmbedResult)
    (upsert : Nat → List ℚ → ReviewPayload → Bool) (now : String)
    (st : RevState) (rows : List ReviewRow) : RevState :=
  rows.foldl (processReviewRow embed upsert now) st

/-- process_reviews run to completion: the loop followed by the
unconditional checkpoint flush of lines 343-344. -/
def process_reviews (embed : String → EmbedResult)
    (upsert : Nat → List ℚ → ReviewPayload → Bool) (now : String)
    (st : RevState) (rows : List ReviewRow) : RevState :=
  let st' := runReviewRows embed upsert now st rows
  { st' with persisted := st'.processed }

/-- process_reviews interrupted by KeyboardInterrupt after the first k
rows: the inner except Exception of the loop does not catch
KeyboardInterrupt, so the exception propagates past the flush at lines
343-344, and the handler in main (lines 384-385) only prints — no
save_checkpoint call runs on this path. The exit state is therefore
just the fold over the consumed prefix. -/
def process_reviews_interrupted (embed : String → EmbedResult)
    (upsert : Nat → List ℚ → ReviewPayload → Bool) (now : String)
    (st : RevState) (rows : List ReviewRow) (k : Nat) : RevState :=
  runReviewRows embed upsert now st (rows.take k)

/-! ## Recovery driver (retry_failed_embeddings.py) -/

def TRUNCATE_LEN : Nat := 500

def BGE_M3_DIM : Nat := 1024

/-- Line 29: FALLBACK_VECTOR = [1.0 / (BGE_M3_DIM ** 0.5)] * BGE_M3_DIM.
1024 ** 0.5 is exactly 32 (1024 is a perfect square and both values
are exactly representable in IEEE doubles), so each component is the
rational 1/32. -/
def FALLBACK_VECTOR : List ℚ :=
  List.replicate BGE_M3_DIM (1 / 32)

/-- One entry of the embedding_failures.json file as the retry script
reads it: only the review_id key is consulted (line 120); none models
an entry without that key (x.get returning None). -/
structure LedgerEntry where
  review_id : Option Nat
deriving DecidableEq

/-- The review ids listed in the ledger file (the wording of the
spec: the identifiers listed in the persisted failure ledger), for
comparison with what the script actually retries. -/
def listedIds (failures : List LedgerEntry) : List Nat :=
  failures.filterMap (fun x => x.review_id)

/-- Python truthiness of x.get(review_id): false for a missing key
and for the value 0. -/
def truthyId : Option Nat → Bool
  | none => false
  | some n => n != 0

/-- Line 120: failed_ids = [x[review_id] for x in failures if x.get(review_id)]. -/
def pendingFromLedger (failures : List LedgerEntry) : List Nat :=
  (failures.filter (fun x => truthyId x.review_id)).filterMap (fun x => x.review_id)

/-- Lines 101-111: failed_ids = sorted(all_ids - processed) in
--from-db mode. -/
def pendingFromDb (allIds processed : Finset Nat) : List Nat :=
  (allIds \ processed).sort (· ≤ ·)

/-- The single-row re-fetch of lines 139-149 yields these fields (id
is the queried review id; the remaining columns as in ReviewRow). -/
structure RetryRow where
  product_no : String
  contents : String
  score_field : Option Int
  registered_field : Option String
deriving DecidableEq

/-- Payload built at lines 175-184: no contents field, and the
embedding_fallback key is present (true) exactly when the fallback
vector was substituted. -/
structure RetryPayload where
  type : String
  review_id : Nat
  product_no : String
  review_score : Int
  registered_at : Option String
  indexed_at : String
  embedding_fallback : Bool
deriving DecidableEq

def buildRetryPayload (review_id : Nat) (row : RetryRow) (now : String)
    (use_fallback : Bool) : RetryPayload :=
  { type := "review"
    review_id := review_id
    product_no := row.product_no
    review_score := row.score_field.getD 3
    registered_at := row.registered_field.map (fun s => pySlice s 10)
    indexed_at := now
    embedding_fallback := use_fallback }

/-- Recovery driver state. embedCalls is the trace of the texts sent
to try_embed; writes records successful upserts. -/
structure RetryState where
  processed : Finset Nat
  persisted : Finset Nat
  success : Nat
  fail : Nat
  embedCalls : List String
  writes : List (Nat × List ℚ × RetryPayload)
deriving DecidableEq

def initRetry (c : Finset Nat) : RetryState :=
  { processed := c, persisted := c, success := 0, fail := 0
    embedCalls := [], writes := [] }

/-- The body of the per-id loop of the retry main (lines 138-194):
re-fetch the row (fail when absent or with empty stripped contents);
truncate-then-strip the contents and send that text to try_embed; on a
falsy vector substitute FALLBACK_VECTOR when the --fallback flag is
set, else fail; upsert at 10000000 + review_id; on success add the id
to the checkpoint and save it immediately (lines 188-190). -/
def processRetryId (fetch : Nat → Option RetryRow) (embed : String → EmbedResult)
    (upsert : Nat → List ℚ → RetryPayload → Bool)
    (fallbackEnabled : Bool) (truncate_len : Nat) (now : String)
    (st : RetryState) (review_id : Nat) : RetryState :=
  match fetch review_id with
  | none => { st with fail := st.fail + 1 }
  | some row =>
    let contents := pyStrip row.contents
    if contents = "" then
      { st with fail := st.fail + 1 }
    else
      let truncated := pyStrip (pySlice contents truncate_len)
      let st1 := { st with embedCalls := st.embedCalls ++ [truncated] }
      let res := embed truncated
      let vecFlag : Option (List ℚ × Bool) :=
        if vectorFalsy res.1 then
          if fallbackEnabled then some (FALLBACK_VECTOR, true) else none
        else
          match res.1 with
          | some v => some (v, false)
          | none => none
      match vecFlag with
      | none => { st1 with fail := st1.fail + 1 }
      | some (vector, use_fallback) =>
        let payload := buildRetryPayload review_id row now use_fallback
        let point_id := reviewPointId review_id
        if upsert point_id vector payload then
          let processed := insert review_id st1.processed
          { st1 with
            processed := processed
            persisted := processed
            success := st1.success + 1
            writes := st1.writes ++ [(point_id, vector, payload)] }
        else
          { st1 with fail := st1.fail + 1 }

def runRetry (fetch : Nat → Option RetryRow) (embed : String → EmbedResult)
    (upsert : Nat → List ℚ → RetryPayload → Bool)
    (fallbackEnabled : Bool) (truncate_len : Nat) (now : String)
    (st : RetryState) (ids : List Nat) : RetryState :=
  ids.foldl (processRetryId fetch embed upsert fallbackEnabled truncate_len now) st

/-! ## Concrete environments and rows used by witnesses and counterexamples -/

/-- An embedding client whose calls always succeed with a fixed
one-component vector. -/
def embedOk : String → EmbedResult := fun _ => (some [1], none)

/-- An embedding client whose calls always fail (retries exhausted
inside generate_embedding / try_embed). -/
def embedAlwaysFail : String → EmbedResult := fun _ => (none, some "HTTP 500")

/-- An index writer whose upserts always succeed. -/
def upsertOk {α : Type} : Nat → List ℚ → α → Bool := fun _ _ _ => true

/-- An index writer whose upserts always fail (save_to_qdrant retries
exhausted, returning False). -/
def upsertNever {α : Type} : Nat → List ℚ → α → Bool := fun _ _ _ => false

def demoReviewRow (n : Nat) : ReviewRow :=
  { id := n, product_no := "77", contents := "촉촉하고 좋아요"
    score_field := some 5, registered_field := some "2025-01-02T03:04:05" }

/-- A review row whose contents is a lone space: it passes the SQL
filter contents != two-quotes of the query but strips to empty in the
loop body. -/
def blankReviewRow : ReviewRow :=
  { id := 4, product_no := "77", contents := " "
    score_field := some 5, registered_field := none }

/-- Source rows with ids 1..5, all with embeddable contents. -/
def demoRows5 : List ReviewRow :=
  (List.range 5).map (fun n => demoReviewRow (n + 1))

/-- A product whose product_no is inside the claimed valid range. -/
def demoProd : ProductRow :=
  { id := 1, product_no := 11, product_name := "수분 크림", short_description := "보습 크림"
    notices := [], sales_price := 10000, discounted_price := 8000
    review_count := 3, product_image_url := "" }

/-- A product whose product_no lies inside the review offset range. -/
def bigProduct : ProductRow :=
  { id := 1, product_no := 10000005, product_name := "크림", short_description := "보습"
    notices := [], sales_price := 10000, discounted_price := 8000
    review_count := 3, product_image_url := "" }

def demoRetryRow : RetryRow :=
  { product_no := "77", contents := "촉촉하고 좋아요"
    score_field := some 5, registered_field := none }

def fetchDemo : Nat → Option RetryRow := fun _ => some demoRetryRow

/-- A retry row whose contents is six a characters, longer than a
truncation bound of five. -/
def sixA : RetryRow :=
  { product_no := "1", contents := ⟨List.replicate 6 'a'⟩
    score_field := none, registered_field := none }

/-- The payload property of the product driver: the price field is the
discounted price when positive and the sales price otherwise, and
has_discount holds exactly for a positive discount strictly below the
sales price. -/
def prodPayloadOk (p : ProductPayload) : Prop :=
  p.price = (if 0 < p.discounted_price then p.discounted_price else p.sales_price) ∧
  (p.has_discount = true ↔ 0 < p.discounted_price ∧ p.discounted_price < p.sales_price)

/-! ## Helper lemmas -/

lemma processReviewRow_of_mem (e : String → EmbedResult)
    (u : Nat → List ℚ → ReviewPayload → Bool) (n : String)
    (st : RevState) (row : ReviewRow) (h : row.id ∈ st.processed) :
    processReviewRow e u n st row = { st with skip := st.skip + 1 } := by
  simp [processReviewRow, h]

lemma processReviewRow_skip_char (e : String → EmbedResult)
    (u : Nat → List ℚ → ReviewPayload → Bool) (n : String)
    (st : RevState) (row : ReviewRow) :
    (processReviewRow e u n st row).skip =
      st.skip + (if row.id ∈ st.processed then 1
        else if pyStrip row.contents = "" then 1 else 0) := by
  simp only [processReviewRow]
  split
  · simp [*]
  · split
    · simp [*]
    · split
      · simp [*]
      · split
        · simp [*]
        · split <;> simp [*]

lemma processReviewRow_processed_cases (e : String → EmbedResult)
    (u : Nat → List ℚ → ReviewPayload → Bool) (n : String)
    (st : RevState) (row : ReviewRow) :
    (processReviewRow e u n st row).processed = st.processed ∨
    ((processReviewRow e u n st row).processed = insert row.id st.processed ∧
      ∃ v p, u (reviewPointId row.id) v p = true ∧
        (processReviewRow e u n st row).writes =
          st.writes ++ [(reviewPointId row.id, v, p)]) := by
  simp only [processReviewRow]
  split
  · left; rfl
  · split
    · left; rfl
    · split
      · left; rfl
      · split
        · left; rfl
        · split
          · right
            exact ⟨rfl, _, _, by assumption, rfl⟩
          · left; rfl

lemma processReviewRow_embedCalls_char (e : String → EmbedResult)
    (u : Nat → List ℚ → ReviewPayload → Bool) (n : String)
    (st : RevState) (row : ReviewRow) :
    (processReviewRow e u n st row).embedCalls =
      st.embedCalls ++
        (if row.id ∉ st.processed ∧ pyStrip row.contents ≠ "" then [row.id] else []) := by
  simp only [processReviewRow]
  split
  · simp [*]
  · split
    · simp [*]
    · split
      · simp [*]
      · split
        · simp [*]
        · split <;> simp [*]

lemma processReviewRow_failedLog_char (e : String → EmbedResult)
    (u : Nat → List ℚ → ReviewPayload → Bool) (n : String)
    (st : RevState) (row : ReviewRow) :
    (processReviewRow e u n st row).failedLog =
      st.failedLog ++
        (if row.id ∉ st.processed ∧ pyStrip row.contents ≠ "" ∧
            vectorFalsy (e (pyStrip row.contents)).1 = true then
          [mkFailEntry row (pyStrip row.contents) (e (pyStrip row.contents)).2]
        else []) := by
  simp only [processReviewRow]
  split
  · simp [*]
  · split
    · simp [*]
    · split
      · simp_all [vectorFalsy]
      · split
        · simp_all [vectorFalsy]
        · split <;> simp_all [vectorFalsy]

lemma foldl_subset {σ α : Type} (f : σ → α → σ) (proj : σ → Finset Nat)
    (h : ∀ s a, proj s ⊆ proj (f s a)) :
    ∀ (l : List α) (s : σ), proj s ⊆ proj (l.foldl f s) := by
  intro l
  induction l with
  | nil => intro s; simp
  | cons a t ih =>
    intro s
    rw [List.foldl_cons]
    exact (h s a).trans (ih (f s a))

lemma processProductRow_processed_cases (e : String → EmbedResult)
    (u : Nat → List ℚ → ProductPayload → Bool) (n : String)
    (st : ProdState) (row : ProductRow) :
    (processProductRow e u n st row).processed = st.processed ∨
    ((processProductRow e u n st row).processed = insert row.id st.processed ∧
      ∃ v p, u (productPointId row.product_no) v p = true ∧
        (processProductRow e u n st row).writes =
          st.writes ++ [(productPointId row.product_no, v, p)]) := by
  simp only [processProductRow]
  split
  · left; rfl
  · split
    · left; rfl
    · split
      · left; rfl
      · split
        · right
          exact ⟨rfl, _, _, by assumption, rfl⟩
        · left; rfl

lemma processRetryId_processed_cases (fetch : Nat → Option RetryRow)
    (e : String → EmbedResult) (u : Nat → List ℚ → RetryPayload → Bool)
    (fb : Bool) (tl : Nat) (n : String) (st : RetryState) (i : Nat) :
    (processRetryId fetch e u fb tl n st i).processed = st.processed ∨
    ((processRetryId fetch e u fb tl n st i).processed = insert i st.processed ∧
      ∃ v p, u (reviewPointId i) v p = true ∧
        (processRetryId fetch e u fb tl n st i).writes =
          st.writes ++ [(reviewPointId i, v, p)]) := by
  simp only [processRetryId]
  split
  · left; rfl
  · split
    · left; rfl
    · split
      · left; rfl
      · split
        · right
          exact ⟨rfl, _, _, by assumption, rfl⟩
        · left; rfl

lemma runReviewRows_accounting (e : String → EmbedResult)
    (u : Nat → List ℚ → ReviewPayload → Bool) (n : String) (S : Finset Nat) :
    ∀ (rows : List ReviewRow) (st : RevState),
      (rows.map (fun r => r.id)).Nodup →
      (∀ r ∈ rows, (r.id ∈ st.processed ↔ r.id ∈ S)) →
      (runReviewRows e u n st rows).skip =
        st.skip + rows.countP (fun r => decide (r.id ∈ S)) +
          rows.countP (fun r => decide (r.id ∉ S ∧ pyStrip r.contents = "")) ∧
      (runReviewRows e u n st rows).embedCalls =
        st.embedCalls ++ (rows.filter
          (fun r => decide (r.id ∉ S ∧ pyStrip r.contents ≠ ""))).map (fun r => r.id) := by
  intro rows
  induction rows with
  | nil =>
    intro st _ _
    simp [runReviewRows]
  | cons r t ih =>
    intro st hnd hS
    have hr : r.id ∈ st.processed ↔ r.id ∈ S := hS r (by simp)
    rw [List.map_cons, List.nodup_cons] at hnd
    have hstep := processReviewRow_processed_cases e u n st r
    have hS' : ∀ x ∈ t, (x.id ∈ (processReviewRow e u n st r).processed ↔ x.id ∈ S) := by
      intro x hx
      have hne : x.id ≠ r.id := by
        intro hEq
        exact hnd.1 (hEq ▸ List.mem_map_of_mem (fun z => z.id) hx)
      rcases hstep with hcase | ⟨hcase, _⟩
      · rw [hcase]
        exact hS x (List.mem_cons_of_mem r hx)
      · rw [hcase, Finset.mem_insert]
        constructor
        · intro hor
          rcases hor with hEq | hin
          · exact absurd hEq hne
          · exact (hS x (List.mem_cons_of_mem r hx)).mp hin
        · intro hin
          exact Or.inr ((hS x (List.mem_cons_of_mem r hx)).mpr hin)
    obtain ⟨ihskip, ihcalls⟩ := ih (processReviewRow e u n st r) hnd.2 hS'
    have hrun : runReviewRows e u n st (r :: t) =
        runReviewRows e u n (processReviewRow e u n st r) t := by
      simp [runReviewRows]
    constructor
    · rw [hrun, ihskip, processReviewRow_skip_char, List.countP_cons, List.countP_cons]
      by_cases hmem : r.id ∈ S
      · have h1 : r.id ∈ st.processed := hr.mpr hmem
        simp [h1, hmem]
        omega
      · have h1 : r.id ∉ st.processed := fun h => hmem (hr.mp h)
        by_cases hbl : pyStrip r.contents = ""
        · simp [h1, hmem, hbl]
          omega
        · simp [h1, hmem, hbl]
    · rw [hrun, ihcalls, processReviewRow_embedCalls_char, List.filter_cons]
      by_cases hmem : r.id ∈ S
      · have h1 : r.id ∈ st.processed := hr.mpr hmem
        simp [h1, hmem]
      · have h1 : r.id ∉ st.processed := fun h => hmem (hr.mp h)
        by_cases hbl : pyStrip r.contents = ""
        · simp [h1, hmem, hbl]
        · simp [h1, hmem, hbl]

lemma buildProductPayload_ok (row : ProductRow) (now : String) :
    prodPayloadOk (buildProductPayload row now) := by
  constructor
  · simp [buildProductPayload]
  · simp [buildProductPayload]

lemma processProductRow_writes_cases (e : String → EmbedResult)
    (u : Nat → List ℚ → ProductPayload → Bool) (n : String)
    (st : ProdState) (row : ProductRow) :
    (processProductRow e u n st row).writes = st.writes ∨
    ∃ v, (processProductRow e u n st row).writes =
      st.writes ++ [(productPointId row.product_no, v, buildProductPayload row n)] := by
  simp only [processProductRow]
  split
  · left; rfl
  · split
    · left; rfl
    · split
      · left; rfl
      · split
        · right
          exact ⟨_, rfl⟩
        · left; rfl

lemma runProductRows_writes_payload (e : String → EmbedResult)
    (u : Nat → List ℚ → ProductPayload → Bool) (n : String) :
    ∀ (rows : List ProductRow) (st : ProdState),
      (∀ w ∈ st.writes, prodPayloadOk w.2.2) →
      ∀ w ∈ (runProductRows e u n st rows).writes, prodPayloadOk w.2.2 := by
  intro rows
  induction rows with
  | nil =>
    intro st h
    simpa [runProductRows] using h
  | cons r t ih =>
    intro st h
    have hstep : ∀ w ∈ (processProductRow e u n st r).writes, prodPayloadOk w.2.2 := by
      intro w hw
      rcases processProductRow_writes_cases e u n st r with hc | ⟨v, hc⟩
      · exact h w (hc ▸ hw)
      · rw [hc, List.mem_append] at hw
        rcases hw with hw | hw
        · exact h w hw
        · have : w = (productPointId r.product_no, v, buildProductPayload r n) := by
            simpa using hw
          rw [this]
          exact buildProductPayload_ok r n
    have hrun : runProductRows e u n st (r :: t) =
        runProductRows e u n (processProductRow e u n st r) t := by
      simp [runProductRows]
    rw [hrun]
    exact ih (processProductRow e u n st r) hstep

/-! ## Claims -/

/-- Claim C1 (code bug). With an empty checkpoint, five review successes
(below the flush cadence of 50) and a KeyboardInterrupt arriving after
the fifth item, the run exits with the checkpoint file still empty: the
exception propagates past the unconditional flush of lines 343-344 and
the handler in main (lines 384-385) only prints. The last conjunct shows
the normal completion of the same run would have persisted all five ids.
The code therefore loses every success since the last periodic flush on
the interruption path, contradicting the claim and the saved-checkpoint
message the handler itself prints. -/
theorem interrupt_loses_unflushed_successes :
    (process_reviews_interrupted embedOk upsertOk "t" (initRev ∅) demoRows5 5).success = 5 ∧
    (process_reviews_interrupted embedOk upsertOk "t" (initRev ∅) demoRows5 5).processed
      = {1, 2, 3, 4, 5} ∧
    (process_reviews_interrupted embedOk upsertOk "t" (initRev ∅) demoRows5 5).persisted = ∅ ∧
    (process_reviews embedOk upsertOk "t" (initRev ∅) demoRows5).persisted
      = {1, 2, 3, 4, 5} := by
  refine ⟨by decide, by decide, by decide, by decide⟩

/-- Claim C2. The identity mapping is a pure function and collision-free:
for product_no below 10,000,000 the product point id is product_no itself
(offset 0), the review point id is 10,000,000 + review_id, and the two
kinds can never produce the same point id. -/
theorem point_id_mapping_collision_free (p r : Nat) (h : p < 10000000) :
    productPointId p = p ∧ reviewPointId r = 10000000 + r ∧
    productPointId p ≠ reviewPointId r := by
  refine ⟨rfl, rfl, ?_⟩
  simp only [productPointId, reviewPointId, REVIEW_OFFSET]
  omega

/-- Witness for claim C2 at product_no 3 and review id 0. -/
theorem point_id_mapping_collision_free_witness :
    3 < 10000000 ∧
    (productPointId 3 = 3 ∧ reviewPointId 0 = 10000000 + 0 ∧
      productPointId 3 ≠ reviewPointId 0) :=
  ⟨by norm_num, point_id_mapping_collision_free 3 0 (by norm_num)⟩

/-- Claim C9, counterexample. A ledger entry whose review_id is 0 is
dropped by the Python truthiness filter of line 120, so the pending list
is empty although the ledger file lists the identifier 0: ledger mode
does not retry exactly the identifiers listed in the file. -/
theorem ledger_zero_id_dropped :
    pendingFromLedger [⟨some 0⟩] ≠ listedIds [⟨some 0⟩] ∧
    pendingFromLedger [⟨some 0⟩] = [] ∧ listedIds [⟨some 0⟩] = [0] := by
  refine ⟨by decide, by decide, by decide⟩

/-- Claim C9 as amended. Ledger mode retries exactly the identifiers
that appear in a ledger entry and are nonzero (a missing or falsy
review_id is dropped); from-db mode retries exactly the identifiers
known to the source minus those recorded in the checkpoint. -/
theorem pending_set_characterisation :
    (∀ (entries : List LedgerEntry) (i : Nat),
      i ∈ pendingFromLedger entries ↔ ((∃ x ∈ entries, x.review_id = some i) ∧ i ≠ 0)) ∧
    (∀ (allIds processed : Finset Nat) (i : Nat),
      i ∈ pendingFromDb allIds processed ↔ (i ∈ allIds ∧ i ∉ processed)) := by
  constructor
  · intro entries i
    constructor
    · intro hmem
      rw [pendingFromLedger, List.mem_filterMap] at hmem
      obtain ⟨x, hx, hfx⟩ := hmem
      rw [List.mem_filter] at hx
      refine ⟨⟨x, hx.1, hfx⟩, ?_⟩
      have := hx.2
      rw [hfx] at this
      simpa [truthyId] using this
    · rintro ⟨⟨x, hx, hfx⟩, hne⟩
      rw [pendingFromLedger, List.mem_filterMap]
      refine ⟨x, ?_, hfx⟩
      rw [List.mem_filter]
      refine ⟨hx, ?_⟩
      rw [hfx]
      simpa [truthyId] using hne
  · intro allIds processed i
    rw [pendingFromDb, Finset.mem_sort, Finset.mem_sdiff]



/-- Claim C6, counterexample. A review whose contents is a lone space
passes the SQL filter of the source query but is skipped by the
empty-contents branch, so the skip count is 1 while the number of
checkpointed source identifiers is 0: the skip count does not equal the
number of identifiers already in the checkpoint. -/
theorem whitespace_contents_inflates_skip_count :
    (runReviewRows embedOk upsertOk "t" (initRev ∅) [blankReviewRow]).skip = 1 ∧
    ([blankReviewRow].countP (fun r => decide (r.id ∈ (∅ : Finset Nat)))) = 0 ∧
    (1 : Nat) ≠ 0 := by
  refine ⟨by decide, by decide, by decide⟩

/-- Claim C6 as amended. A checkpointed identifier transitions to SKIP
with no other state change; the embedding client is invoked exactly for
the rows that are neither checkpointed nor empty after stripping; and
the skip count equals the number of checkpointed source identifiers plus
the number of non-checkpointed rows whose stripped contents is empty,
for any run over rows with pairwise distinct identifiers. -/
theorem resumability_skip_accounting (e : String → EmbedResult)
    (u : Nat → List ℚ → ReviewPayload → Bool) (n : String)
    (c : Finset Nat) (rows : List ReviewRow)
    (hnd : (rows.map (fun r => r.id)).Nodup) :
    (∀ (st : RevState) (row : ReviewRow), row.id ∈ st.processed →
      processReviewRow e u n st row = { st with skip := st.skip + 1 }) ∧
    (runReviewRows e u n (initRev c) rows).embedCalls =
      (rows.filter (fun r => decide (r.id ∉ c ∧ pyStrip r.contents ≠ ""))).map
        (fun r => r.id) ∧
    (runReviewRows e u n (initRev c) rows).skip =
      rows.countP (fun r => decide (r.id ∈ c)) +
        rows.countP (fun r => decide (r.id ∉ c ∧ pyStrip r.contents = "")) := by
  have hacc := runReviewRows_accounting e u n c rows (initRev c) hnd
    (by intro r _; exact Iff.rfl)
  refine ⟨fun st row h => processReviewRow_of_mem e u n st row h, ?_, ?_⟩
  · simpa [initRev] using hacc.2
  · simpa [initRev] using hacc.1

/-- Witness for claim C6 at the checkpoint containing 1, 2, 3 and the
source rows 1..5: skip count 3 and exactly 4 and 5 embedded. -/
theorem resumability_skip_accounting_witness :
    ((demoRows5.map (fun r => r.id)).Nodup) ∧
    (runReviewRows embedOk upsertOk "t" (initRev {1, 2, 3}) demoRows5).skip = 3 ∧
    (runReviewRows embedOk upsertOk "t" (initRev {1, 2, 3}) demoRows5).embedCalls = [4, 5] :=
  have h := resumability_skip_accounting embedOk upsertOk "t" {1, 2, 3} demoRows5 (by decide)
  ⟨by decide, h.2.2.trans (by decide), h.2.1.trans (by decide)⟩

/-- Claim C3, counterexample. A review whose embedding succeeds but
whose index write permanently fails (save_to_qdrant retries exhausted,
returning False) increments only the fail counter: failed_log stays
empty and the id stays out of the checkpoint, so this permanent failure
is never written to the ledger file. -/
theorem write_failure_not_in_ledger :
    (runReviewRows embedOk upsertNever "t" (initRev ∅) [demoReviewRow 1]).fail = 1 ∧
    (runReviewRows embedOk upsertNever "t" (initRev ∅) [demoReviewRow 1]).failedLog = [] ∧
    (runReviewRows embedOk upsertNever "t" (initRev ∅) [demoReviewRow 1]).processed = ∅ := by
  refine ⟨by decide, by decide, by decide⟩

/-- Claim C3 as amended. In process_reviews the failure ledger gains an
entry exactly when a fresh review with nonempty stripped contents fails
embedding; in every other case, including an index-write failure, the
ledger is unchanged and the failure is recorded only in the fail
counter. (The product driver maintains no failure ledger at all: its
state has no such component because process_products builds none.) -/
theorem ledger_records_exactly_embed_failures (e : String → EmbedResult)
    (u : Nat → List ℚ → ReviewPayload → Bool) (n : String)
    (st : RevState) (row : ReviewRow) :
    ((row.id ∉ st.processed ∧ pyStrip row.contents ≠ "" ∧
        vectorFalsy (e (pyStrip row.contents)).1 = true) →
      (processReviewRow e u n st row).failedLog =
        st.failedLog ++ [mkFailEntry row (pyStrip row.contents) (e (pyStrip row.contents)).2] ∧
      (processReviewRow e u n st row).fail = st.fail + 1) ∧
    (¬ (row.id ∉ st.processed ∧ pyStrip row.contents ≠ "" ∧
        vectorFalsy (e (pyStrip row.contents)).1 = true) →
      (processReviewRow e u n st row).failedLog = st.failedLog) ∧
    (∀ v, (e (pyStrip row.contents)).1 = some v → ¬ v.isEmpty = true →
      row.id ∉ st.processed → pyStrip row.contents ≠ "" →
      u (reviewPointId row.id) v (buildReviewPayload row (pyStrip row.contents) n) = false →
      (processReviewRow e u n st row).fail = st.fail + 1 ∧
      (processReviewRow e u n st row).failedLog = st.failedLog ∧
      (processReviewRow e u n st row).processed = st.processed) := by
  refine ⟨?_, ?_, ?_⟩
  · rintro ⟨h1, h2, h3⟩
    constructor
    · rw [processReviewRow_failedLog_char, if_pos ⟨h1, h2, h3⟩]
    · rcases hres : (e (pyStrip row.contents)).1 with _ | v
      · simp [processReviewRow, h1, h2, hres]
      · have hv : v.isEmpty = true := by
          rw [hres] at h3
          simpa [vectorFalsy] using h3
        simp [processReviewRow, h1, h2, hres, hv]
  · intro hneg
    rw [processReviewRow_failedLog_char, if_neg hneg, List.append_nil]
  · intro v hres hv h1 h2 hu
    simp [processReviewRow, h1, h2, hres, hv, hu]



/-- Witness for claim C3 as amended: an embedding failure appends its
ledger entry, and an index-write failure leaves the ledger empty. -/
theorem ledger_records_exactly_embed_failures_witness :
    ((1 : Nat) ∉ (initRev ∅).processed ∧ pyStrip (demoReviewRow 1).contents ≠ "" ∧
      vectorFalsy (embedAlwaysFail (pyStrip (demoReviewRow 1).contents)).1 = true) ∧
    (processReviewRow embedAlwaysFail upsertOk "t" (initRev ∅) (demoReviewRow 1)).failedLog =
      (initRev ∅).failedLog ++
        [mkFailEntry (demoReviewRow 1) (pyStrip (demoReviewRow 1).contents)
          (embedAlwaysFail (pyStrip (demoReviewRow 1).contents)).2] ∧
    (processReviewRow embedOk upsertNever "t" (initRev ∅) (demoReviewRow 1)).failedLog =
      (initRev ∅).failedLog :=
  have h1 := ledger_records_exactly_embed_failures embedAlwaysFail upsertOk "t"
    (initRev ∅) (demoReviewRow 1)
  have h2 := ledger_records_exactly_embed_failures embedOk upsertNever "t"
    (initRev ∅) (demoReviewRow 1)
  ⟨⟨by decide, by decide, by decide⟩,
    (h1.1 ⟨by decide, by decide, by decide⟩).1,
    (h2.2.2 [1] (by decide) (by decide) (by decide) (by decide) (by decide)).2.1⟩

/-- Claim C4, counterexample. In the recovery driver with the fallback
flag enabled, the embedding of review 7 fails (the client never returns
a vector, as the third conjunct shows for the exact text sent), yet
after the fallback-vector upsert succeeds the id is inserted into the
checkpoint: an item whose embedding failed does enter the checkpoint. -/
theorem fallback_enters_checkpoint_after_embed_failure :
    (runRetry fetchDemo embedAlwaysFail upsertOk true 500 "t" (initRetry ∅) [7]).processed
      = {7} ∧
    (runRetry fetchDemo embedAlwaysFail upsertOk true 500 "t" (initRetry ∅) [7]).writes.map
      (fun w => w.2.2.embedding_fallback) = [true] ∧
    (embedAlwaysFail
      (pyStrip (pySlice (pyStrip demoRetryRow.contents) 500))).1 = none := by
  refine ⟨by decide, by decide, by decide⟩

/-- Claim C4 as amended. In all three drivers the in-memory checkpoint
set only grows, and a step adds an identifier exactly when the index
upsert for that item returned success, extending the write trace by that
point; an embedding failure alone, however, does not keep an item out of
the checkpoint on the recovery fallback path. -/
theorem checkpoint_append_only (e : String → EmbedResult)
    (ur : Nat → List ℚ → ReviewPayload → Bool)
    (up : Nat → List ℚ → ProductPayload → Bool)
    (ut : Nat → List ℚ → RetryPayload → Bool)
    (fetch : Nat → Option RetryRow) (fb : Bool) (tl : Nat) (n : String) :
    (∀ (st : RevState) (row : ReviewRow),
      (processReviewRow e ur n st row).processed = st.processed ∨
      ((processReviewRow e ur n st row).processed = insert row.id st.processed ∧
        ∃ v p, ur (reviewPointId row.id) v p = true ∧
          (processReviewRow e ur n st row).writes =
            st.writes ++ [(reviewPointId row.id, v, p)])) ∧
    (∀ (st : ProdState) (row : ProductRow),
      (processProductRow e up n st row).processed = st.processed ∨
      ((processProductRow e up n st row).processed = insert row.id st.processed ∧
        ∃ v p, up (productPointId row.product_no) v p = true ∧
          (processProductRow e up n st row).writes =
            st.writes ++ [(productPointId row.product_no, v, p)])) ∧
    (∀ (st : RetryState) (i : Nat),
      (processRetryId fetch e ut fb tl n st i).processed = st.processed ∨
      ((processRetryId fetch e ut fb tl n st i).processed = insert i st.processed ∧
        ∃ v p, ut (reviewPointId i) v p = true ∧
          (processRetryId fetch e ut fb tl n st i).writes =
            st.writes ++ [(reviewPointId i, v, p)])) ∧
    (∀ (st : RevState) (rows : List ReviewRow),
      st.processed ⊆ (runReviewRows e ur n st rows).processed) ∧
    (∀ (st : ProdState) (rows : List ProductRow),
      st.processed ⊆ (runProductRows e up n st rows).processed) ∧
    (∀ (st : RetryState) (ids : List Nat),
      st.processed ⊆ (runRetry fetch e ut fb tl n st ids).processed) := by
  refine ⟨processReviewRow_processed_cases e ur n,
    processProductRow_processed_cases e up n,
    processRetryId_processed_cases fetch e ut fb tl n, ?_, ?_, ?_⟩
  · intro st rows
    refine foldl_subset _ (fun s => s.processed) ?_ rows st
    intro s a
    show s.processed ⊆ (processReviewRow e ur n s a).processed
    rcases processReviewRow_processed_cases e ur n s a with hc | ⟨hc, _⟩
    · rw [hc]
    · rw [hc]
      exact Finset.subset_insert _ _
  · intro st rows
    refine foldl_subset _ (fun s => s.processed) ?_ rows st
    intro s a
    show s.processed ⊆ (processProductRow e up n s a).processed
    rcases processProductRow_processed_cases e up n s a with hc | ⟨hc, _⟩
    · rw [hc]
    · rw [hc]
      exact Finset.subset_insert _ _
  · intro st ids
    refine foldl_subset _ (fun s => s.processed) ?_ ids st
    intro s a
    show s.processed ⊆ (processRetryId fetch e ut fb tl n s a).processed
    rcases processRetryId_processed_cases fetch e ut fb tl n s a with hc | ⟨hc, _⟩
    · rw [hc]
    · rw [hc]
      exact Finset.subset_insert _ _



/-- Claim C5, counterexample. No startup validation exists: a product
with product_no 10,000,005 is processed and written successfully
(success 1, fail 0) at point id 10,000,005, which equals the point id of
review 5 — the unsafe mapping condition is silent collision, not a
detected validation failure. -/
theorem out_of_range_product_written_silently :
    (process_products embedOk upsertOk "t" (initProd ∅) [bigProduct]).success = 1 ∧
    (process_products embedOk upsertOk "t" (initProd ∅) [bigProduct]).fail = 0 ∧
    (process_products embedOk upsertOk "t" (initProd ∅) [bigProduct]).writes.map
      (fun w => w.1) = [10000005] ∧
    reviewPointId 5 = 10000005 := by
  refine ⟨by decide, by decide, by decide, by decide⟩

/-- Claim C5 as amended. The product driver applies no range check to
product_no: any fresh row whose embedding and upsert succeed is written
at point id product_no unconditionally, and whenever product_no is at
least 10,000,000 that point id coincides with the review point id of
product_no minus 10,000,000. -/
theorem no_startup_range_validation (e : String → EmbedResult)
    (u : Nat → List ℚ → ProductPayload → Bool) (n : String)
    (st : ProdState) (row : ProductRow) (v : List ℚ) (err : Option String)
    (h1 : row.id ∉ st.processed)
    (h2 : e (productEmbedText row) = (some v, err))
    (h3 : ¬ v.isEmpty = true)
    (h4 : u (productPointId row.product_no) v (buildProductPayload row n) = true) :
    (processProductRow e u n st row).success = st.success + 1 ∧
    (processProductRow e u n st row).fail = st.fail ∧
    (processProductRow e u n st row).writes =
      st.writes ++ [(productPointId row.product_no, v, buildProductPayload row n)] ∧
    (processProductRow e u n st row).processed = insert row.id st.processed ∧
    (REVIEW_OFFSET ≤ row.product_no →
      productPointId row.product_no =
        reviewPointId (row.product_no - REVIEW_OFFSET)) := by
  refine ⟨?_, ?_, ?_, ?_, ?_⟩
  · simp [processProductRow, h1, h2, h3, h4]
  · simp [processProductRow, h1, h2, h3, h4]
  · simp [processProductRow, h1, h2, h3, h4]
  · simp [processProductRow, h1, h2, h3, h4]
  · intro hle
    simp only [productPointId, reviewPointId, REVIEW_OFFSET] at *
    omega

/-- Witness for claim C5 as amended at the product with product_no
10,000,005. -/
theorem no_startup_range_validation_witness :
    ((1 : Nat) ∉ (initProd ∅).processed ∧
      embedOk (productEmbedText bigProduct) = (some [1], none) ∧
      ¬ ([(1 : ℚ)].isEmpty = true) ∧
      upsertOk (productPointId bigProduct.product_no) [(1 : ℚ)]
        (buildProductPayload bigProduct "t") = true) ∧
    (processProductRow embedOk upsertOk "t" (initProd ∅) bigProduct).success = 0 + 1 ∧
    productPointId bigProduct.product_no =
      reviewPointId (bigProduct.product_no - REVIEW_OFFSET) :=
  have h := no_startup_range_validation embedOk upsertOk "t" (initProd ∅) bigProduct
    [(1 : ℚ)] none (by decide) rfl (by decide) rfl
  ⟨⟨by decide, rfl, by decide, rfl⟩, h.1, h.2.2.2.2 (by norm_num [REVIEW_OFFSET, bigProduct])⟩



/-- Claim C7, counterexample. In the recovery driver with a truncation
bound of 5, a six-character contents is truncated and the text sent to
the embedding client is exactly the five-character slice: no truncation
marker (neither the single-character ellipsis nor three dots) occurs in
it. -/
theorem retry_truncation_lacks_marker :
    pyLen sixA.contents = 6 ∧
    (runRetry (fun _ => some sixA) embedOk upsertOk false 5 "t" (initRetry ∅) [1]).embedCalls
      = [⟨List.replicate 5 'a'⟩] ∧
    strContains ⟨List.replicate 5 'a'⟩ "…" = false ∧
    strContains ⟨List.replicate 5 'a'⟩ "..." = false := by
  refine ⟨by decide, by decide, by decide, by decide⟩

/-- Claim C7 as amended. The stored payload preview appends the
ellipsis marker when contents exceed 500 characters and is the contents
itself otherwise; the ingredient-notice branch appends three dots past
200 characters; every payload written by the review driver stores that
preview; but the recovery path sends the plainly truncated-then-stripped
text to the embedding service with no marker appended. -/
theorem truncation_marker_sites :
    (∀ contents : String, 500 < pyLen contents →
      reviewPreviewContents contents = pySlice contents 500 ++ "…") ∧
    (∀ contents : String, pyLen contents ≤ 500 →
      reviewPreviewContents contents = contents) ∧
    (∀ desc : String, 200 < pyLen desc →
      ingredientShort desc = pySlice desc 200 ++ "...") ∧
    (∀ (e : String → EmbedResult) (u : Nat → List ℚ → ReviewPayload → Bool)
      (n : String) (st : RevState) (row : ReviewRow),
      ∀ w ∈ (processReviewRow e u n st row).writes, w ∈ st.writes ∨
        w.2.2.contents = reviewPreviewContents (pyStrip row.contents)) ∧
    (∀ (fetch : Nat → Option RetryRow) (e : String → EmbedResult)
      (u : Nat → List ℚ → RetryPayload → Bool) (fb : Bool) (tl : Nat)
      (n : String) (st : RetryState) (i : Nat) (row : RetryRow),
      fetch i = some row → pyStrip row.contents ≠ "" →
      (processRetryId fetch e u fb tl n st i).embedCalls =
        st.embedCalls ++ [pyStrip (pySlice (pyStrip row.contents) tl)]) := by
  refine ⟨?_, ?_, ?_, ?_, ?_⟩
  · intro contents h
    rw [reviewPreviewContents, if_neg (by omega)]
  · intro contents h
    rw [reviewPreviewContents, if_pos h, pySlice]
    obtain ⟨l⟩ := contents
    congr 1
    exact List.take_of_length_le h
  · intro desc h
    rw [ingredientShort, if_pos h]
  · intro e u n st row w hw
    revert hw
    simp only [processReviewRow]
    split
    · intro hw; exact Or.inl hw
    · split
      · intro hw; exact Or.inl hw
      · split
        · intro hw; exact Or.inl hw
        · split
          · intro hw; exact Or.inl hw
          · split
            · intro hw
              simp only [List.mem_append, List.mem_singleton] at hw
              rcases hw with hw | hw
              · exact Or.inl hw
              · right
                rw [hw]
                simp [buildReviewPayload]
            · intro hw; exact Or.inl hw
  · intro fetch e u fb tl n st i row hf hc
    simp only [processRetryId, hf]
    rw [if_neg hc]
    split
    · rfl
    · split <;> rfl

set_option maxRecDepth 4000 in
/-- Witness for claim C7 as amended at a 501-character preview, a
201-character ingredient description, and the six-character retry row
truncated at 5. -/
theorem truncation_marker_sites_witness :
    (500 < pyLen (⟨List.replicate 501 'a'⟩ : String) ∧
      reviewPreviewContents ⟨List.replicate 501 'a'⟩ =
        pySlice ⟨List.replicate 501 'a'⟩ 500 ++ "…") ∧
    (200 < pyLen (⟨List.replicate 201 'a'⟩ : String) ∧
      ingredientShort ⟨List.replicate 201 'a'⟩ =
        pySlice ⟨List.replicate 201 'a'⟩ 200 ++ "...") ∧
    ((fun _ => some sixA : Nat → Option RetryRow) 1 = some sixA ∧
      pyStrip sixA.contents ≠ "" ∧
      (processRetryId (fun _ => some sixA) embedOk upsertOk false 5 "t"
        (initRetry ∅) 1).embedCalls =
        (initRetry ∅).embedCalls ++ [pyStrip (pySlice (pyStrip sixA.contents) 5)]) :=
  ⟨⟨by show (500 : Nat) < (List.replicate 501 'a').length; simp,
    truncation_marker_sites.1 ⟨List.replicate 501 'a'⟩
      (by show (500 : Nat) < (List.replicate 501 'a').length; simp)⟩,
    ⟨by show (200 : Nat) < (List.replicate 201 'a').length; simp,
    truncation_marker_sites.2.2.1 ⟨List.replicate 201 'a'⟩
      (by show (200 : Nat) < (List.replicate 201 'a').length; simp)⟩,
    ⟨rfl, by decide, truncation_marker_sites.2.2.2.2 (fun _ => some sixA) embedOk upsertOk
      false 5 "t" (initRetry ∅) 1 sixA rfl (by decide)⟩⟩



/-- Claim C8. With fallback enabled and the embedding call failing for
the item, the recovery driver still upserts the item with
FALLBACK_VECTOR and a payload carrying the embedding_fallback flag, the
item enters the checkpoint which is saved immediately, and the
substituted vector has 1024 components all equal to 1/32, the sum of
their squares is exactly 1, and 32 is the square root of the
dimensionality, so each component is 1 over the square root of 1024. -/
theorem fallback_substitution_unit_norm (fetch : Nat → Option RetryRow)
    (e : String → EmbedResult) (u : Nat → List ℚ → RetryPayload → Bool)
    (tl : Nat) (n : String) (st : RetryState) (i : Nat) (row : RetryRow)
    (h1 : fetch i = some row)
    (h2 : pyStrip row.contents ≠ "")
    (h3 : (e (pyStrip (pySlice (pyStrip row.contents) tl))).1 = none)
    (h4 : u (reviewPointId i) FALLBACK_VECTOR (buildRetryPayload i row n true) = true) :
    (processRetryId fetch e u true tl n st i).writes =
      st.writes ++ [(reviewPointId i, FALLBACK_VECTOR, buildRetryPayload i row n true)] ∧
    (processRetryId fetch e u true tl n st i).processed = insert i st.processed ∧
    (processRetryId fetch e u true tl n st i).persisted = insert i st.processed ∧
    (processRetryId fetch e u true tl n st i).success = st.success + 1 ∧
    (buildRetryPayload i row n true).embedding_fallback = true ∧
    FALLBACK_VECTOR.length = BGE_M3_DIM ∧
    (∀ x ∈ FALLBACK_VECTOR, x = 1 / 32) ∧
    (FALLBACK_VECTOR.map (fun x => x ^ 2)).sum = 1 ∧
    Real.sqrt (BGE_M3_DIM : ℝ) = 32 := by
  have hrun : processRetryId fetch e u true tl n st i =
      { st with
        processed := insert i st.processed
        persisted := insert i st.processed
        success := st.success + 1
        embedCalls := st.embedCalls ++ [pyStrip (pySlice (pyStrip row.contents) tl)]
        writes := st.writes ++
          [(reviewPointId i, FALLBACK_VECTOR, buildRetryPayload i row n true)] } := by
    simp only [processRetryId, h1]
    rw [if_neg h2]
    simp only [h3, vectorFalsy, if_true]
    rw [h4]
    simp
  refine ⟨by rw [hrun], by rw [hrun], by rw [hrun], by rw [hrun], rfl, ?_, ?_, ?_, ?_⟩
  · simp [FALLBACK_VECTOR]
  · intro x hx
    exact List.eq_of_mem_replicate hx
  · rw [FALLBACK_VECTOR, List.map_replicate, List.sum_replicate, nsmul_eq_mul]
    norm_num [BGE_M3_DIM]
  · rw [BGE_M3_DIM]
    rw [show ((1024 : Nat) : ℝ) = 32 ^ 2 by norm_num]
    exact Real.sqrt_sq (by norm_num)

/-- Witness for claim C8 at review 7 with an always-failing embedding
client and an accepting index. -/
theorem fallback_substitution_unit_norm_witness :
    (fetchDemo 7 = some demoRetryRow ∧
      pyStrip demoRetryRow.contents ≠ "" ∧
      (embedAlwaysFail (pyStrip (pySlice (pyStrip demoRetryRow.contents) 500))).1 = none ∧
      upsertOk (reviewPointId 7) FALLBACK_VECTOR
        (buildRetryPayload 7 demoRetryRow "t" true) = true) ∧
    (processRetryId fetchDemo embedAlwaysFail upsertOk true 500 "t"
        (initRetry ∅) 7).writes =
      (initRetry ∅).writes ++
        [(reviewPointId 7, FALLBACK_VECTOR, buildRetryPayload 7 demoRetryRow "t" true)] ∧
    (buildRetryPayload 7 demoRetryRow "t" true).embedding_fallback = true ∧
    (FALLBACK_VECTOR.map (fun x => x ^ 2)).sum = 1 :=
  have h := fallback_substitution_unit_norm fetchDemo embedAlwaysFail upsertOk 500 "t"
    (initRetry ∅) 7 demoRetryRow rfl (by decide) rfl rfl
  ⟨⟨rfl, by decide, rfl, rfl⟩, h.1, h.2.2.2.2.1, h.2.2.2.2.2.2.2.1⟩

/-- Claim C10. Every product write produced by a run carries a payload
whose price field equals discounted_price when that is positive and
sales_price otherwise, and whose has_discount flag holds exactly when
the discounted price is positive and strictly below the sales price. -/
theorem product_payload_price_discount (e : String → EmbedResult)
    (u : Nat → List ℚ → ProductPayload → Bool) (n : String)
    (c : Finset Nat) (rows : List ProductRow) :
    ∀ w ∈ (process_products e u n (initProd c) rows).writes,
      w.2.2.price =
        (if 0 < w.2.2.discounted_price then w.2.2.discounted_price
          else w.2.2.sales_price) ∧
      (w.2.2.has_discount = true ↔
        0 < w.2.2.discounted_price ∧ w.2.2.discounted_price < w.2.2.sales_price) := by
  intro w hw
  have hempty : ∀ x ∈ (initProd c).writes, prodPayloadOk x.2.2 := by
    intro x hx
    simp [initProd] at hx
  have hall := runProductRows_writes_payload e u n rows (initProd c) hempty
  have hmem : w ∈ (runProductRows e u n (initProd c) rows).writes := by
    simpa [process_products] using hw
  have := hall w hmem
  rw [prodPayloadOk] at this
  constructor
  · have h1 := this.1
    by_cases h : 0 < w.2.2.discounted_price
    · rw [if_pos h] at h1 ⊢
      exact h1
    · rw [if_neg h] at h1 ⊢
      exact h1
  · exact this.2

/-- Witness for claim C10 at a concrete discounted product. -/
theorem product_payload_price_discount_witness :
    ((productPointId demoProd.product_no, [(1 : ℚ)], buildProductPayload demoProd "t") ∈
      (process_products embedOk upsertOk "t" (initProd ∅) [demoProd]).writes) ∧
    (buildProductPayload demoProd "t").price =
      (if 0 < (buildProductPayload demoProd "t").discounted_price
        then (buildProductPayload demoProd "t").discounted_price
        else (buildProductPayload demoProd "t").sales_price) ∧
    ((buildProductPayload demoProd "t").has_discount = true ↔
      0 < (buildProductPayload demoProd "t").discounted_price ∧
        (buildProductPayload demoProd "t").discounted_price <
          (buildProductPayload demoProd "t").sales_price) :=
  have h := product_payload_price_discount embedOk upsertOk "t" ∅ [demoProd]
    (productPointId demoProd.product_no, [(1 : ℚ)], buildProductPayload demoProd "t")
    (by decide)
  ⟨by decide, h.1, h.2⟩

end Kurly
